import Mathlib

/-!
# Verification of the `uv` handle/request lifecycle layer

Shallow embedding of the Python sources (`uv/handle.py`, `uv/library.py`,
`uv/request.py`, `uv/handles/fs_event.py`, `uv/handles/tty.py`) of the
BastilleNetworks/uv binding, together with theorems settling the frozen
claims about its specification.

Conventions of the embedding:
* Python `bytes` values are `List Nat` (byte values).
* Callback objects are identified by a `Nat` tag; tag `0` stands for the
  module's `dummy_callback`.  A Python parameter that may be `None` becomes
  an `Option`.
* Native calls are modelled by passing the status code / value the native
  library would return as explicit arguments; the embedding only encodes
  what the Python layer does with them.
* A Python method that can raise returns a bespoke result inductive whose
  error constructors name the exception classes raised by the source.
* Components that the claims depend on but whose defining module is not
  among the source files (the attach/detach registry, the loop pending-set
  operations, `base.BaseRequest.cancel`, the Finished transition) are
  modelled from the specification and marked `Modelled from the spec:` in
  their doc comments.
-/

namespace UV

/-- Exception classes raised by the Python layer (`uv/error.py` taxonomy as
used by the sources: `ClosedStructure`, `ClosedLoopError`,
`ClosedHandleError` / `HandleClosedError`, `UVError(code)`, and the registry
consistency errors of the attach/detach layer). -/
inductive Err : Type
  | closedStructure : Err
  | closedLoopError : Err
  | closedHandleError : Err
  | uvError (code : Int) : Err
  | duplicateAttachment : Err
  | notAttached : Err
deriving DecidableEq, Repr

/-- Result of evaluating a Python property/method: a value, a raised
exception, or a native call made with a nulled (`None`) handle pointer —
the latter is a memory fault at the native boundary, not a managed
exception. -/
inductive PyResult (α : Type) : Type
  | ok (a : α) : PyResult α
  | raised (e : Err) : PyResult α
  | nativeOnNull : PyResult α
deriving DecidableEq, Repr

/-! ## Handle state (`uv/handle.py`)

`Handle.__slots__ = ['uv_handle', 'c_attachment', 'loop', 'destroyed',
'on_closed']`.  The native block's observable state (`uv_is_active`,
`uv_is_closing`, `uv_has_ref`) is carried alongside, and `uvCloseCalls`
counts the `lib.uv_close` invocations the binding has issued for this
handle (spec §6: each native close call invokes the close trampoline
exactly once, asynchronously). -/

structure HandleState : Type where
  hid : Nat
  uv_handle : Option Nat
  destroyed : Bool
  on_closed : Nat
  nativeActive : Bool
  nativeClosing : Bool
  nativeHasRef : Bool
  uvCloseCalls : Nat
deriving DecidableEq, Repr

/-- `Handle.close` (handle.py lines 176-188):
```
if self.destroyed: return
self.on_closed = on_closed or self.on_closed
lib.uv_close(self.uv_handle, uv_close_cb)
```
`lib.uv_close` marks the native block as closing and schedules the close
trampoline (counted in `uvCloseCalls`). -/
def Handle.close (s : HandleState) (on_closed : Option Nat) : HandleState :=
  if s.destroyed then s
  else { s with on_closed := on_closed.getD s.on_closed,
                nativeClosing := true,
                uvCloseCalls := s.uvCloseCalls + 1 }

/-- `Handle.active` property: `if self.destroyed: return False` then
`bool(lib.uv_is_active(self.uv_handle))`. -/
def Handle.active (s : HandleState) : PyResult Bool :=
  if s.destroyed then .ok false else .ok s.nativeActive

/-- `Handle.closed` property: `if self.destroyed: return True` then
`bool(lib.uv_is_closing(self.uv_handle))`. -/
def Handle.closed (s : HandleState) : PyResult Bool :=
  if s.destroyed then .ok true else .ok s.nativeClosing

/-- `Handle.referenced` property: `if self.destroyed: return False` then
`bool(lib.uv_has_ref(self.uv_handle))`. -/
def Handle.referenced (s : HandleState) : PyResult Bool :=
  if s.destroyed then .ok false else .ok s.nativeHasRef

/-- A native getter-style call made with the handle's (possibly nulled)
native reference: the Python layer passes `self.uv_handle` unguarded, so a
call after `destroy` (which nulls the reference) reaches the native library
with a null pointer.  `code` and `val` are what the native call would
report on a valid handle. -/
def nativeGetter (h : Option Nat) (code : Int) (val : Int) : PyResult Int :=
  match h with
  | none => .nativeOnNull
  | some _ => if code < 0 then .raised (.uvError code) else .ok val

/-- `Handle.send_buffer_size` getter (handle.py lines 97-102): no
`destroyed` check before the native call. -/
def Handle.send_buffer_size_get (s : HandleState) (code : Int) (val : Int) :
    PyResult Int :=
  nativeGetter s.uv_handle code val

/-- `Handle.send_buffer_size` setter (handle.py lines 104-108): scales the
value on Linux, no `destroyed` check before the native call. -/
def Handle.send_buffer_size_set (s : HandleState) (is_linux : Bool)
    (value : Nat) (code : Int) : PyResult Unit :=
  match nativeGetter s.uv_handle code
      (Int.ofNat (if is_linux then value / 2 else value)) with
  | .ok _ => .ok ()
  | .raised e => .raised e
  | .nativeOnNull => .nativeOnNull

/-- `Handle.receive_buffer_size` getter (handle.py lines 110-128): no
`destroyed` check before the native call. -/
def Handle.receive_buffer_size_get (s : HandleState) (code : Int) (val : Int) :
    PyResult Int :=
  nativeGetter s.uv_handle code val

/-- `Handle.receive_buffer_size` setter (handle.py lines 130-140):
`if self.destroyed: raise ClosedStructure()` then the scaled native call. -/
def Handle.receive_buffer_size_set (s : HandleState) (is_linux : Bool)
    (value : Nat) (code : Int) : PyResult Unit :=
  if s.destroyed then .raised .closedStructure
  else
    match nativeGetter s.uv_handle code
        (Int.ofNat (if is_linux then value / 2 else value)) with
    | .ok _ => .ok ()
    | .raised e => .raised e
    | .nativeOnNull => .nativeOnNull

/-- `Handle.fileno` (handle.py lines 142-156): `destroyed` check, then the
native `uv_fileno` call. -/
def Handle.fileno (s : HandleState) (code : Int) (fd : Int) : PyResult Int :=
  if s.destroyed then .raised .closedStructure
  else nativeGetter s.uv_handle code fd

/-- `Handle.reference` (handle.py lines 158-165): `destroyed` check, then
`lib.uv_ref`. -/
def Handle.reference (s : HandleState) : PyResult HandleState :=
  if s.destroyed then .raised .closedStructure
  else .ok { s with nativeHasRef := true }

/-- `Handle.dereference` (handle.py lines 167-174): `destroyed` check, then
`lib.uv_unref`. -/
def Handle.dereference (s : HandleState) : PyResult HandleState :=
  if s.destroyed then .raised .closedStructure
  else .ok { s with nativeHasRef := false }

/-- `TTY.console_size` (tty.py lines 113-128): `if self.closing: return
ConsoleSize(0, 0)`, then the native `uv_tty_get_winsize` call; raises
`UVError` on a non-`SUCCESS` status. -/
def TTY.console_size (closing : Bool) (code : Int) (w h : Int) :
    PyResult (Int × Int) :=
  if closing then .ok (0, 0)
  else if code ≠ 0 then .raised (.uvError code)
  else .ok (w, h)

/-! ## Global bookkeeping (`handles` set, attachment registry) -/

/-- The module-level bookkeeping: `handles` is the global handle set of
handle.py line 27; `attachments` is the contents of the attach/detach
registry, keyed by native block address. -/
structure World : Type where
  handles : List Nat
  attachments : List (Nat × Nat)
deriving DecidableEq, Repr

/-- Modelled from the spec: the Attachment Registry's `attach(address,
object) -> token` (spec §4.1) — the module defining `attach`/`detach`
imported by handle.py is not among the source files.  Fails with
`DuplicateAttachment` if the address is already mapped, otherwise records
the mapping. -/
def attach (w : World) (addr hid : Nat) : Except Err World :=
  if addr ∈ w.attachments.map Prod.fst then .error .duplicateAttachment
  else .ok { w with attachments := (addr, hid) :: w.attachments }

/-- Modelled from the spec: the Attachment Registry's `detach(address) ->
object` (spec §4.1).  Fails with `NotAttached` if the address is absent,
otherwise removes the mapping and returns the owner. -/
def detach (w : World) (addr : Nat) : Except Err (World × Nat) :=
  match w.attachments.find? (fun p => p.1 == addr) with
  | none => .error .notAttached
  | some p =>
      .ok ({ w with attachments := w.attachments.filter (fun q => q.1 != addr) },
           p.2)

/-- Result of running a Python constructor: on a raise, the world still
reflects every side effect performed before the exception, and the
partially constructed object (if the handle object was completed enough to
observe) rides along. -/
inductive InitResult : Type
  | ok (w : World) (s : HandleState) : InitResult
  | raised (w : World) (s : Option HandleState) (e : Err) : InitResult
deriving DecidableEq, Repr

/-- `Handle.__init__` (handle.py lines 73-80), in source order:
```
self.uv_handle = ffi.cast('uv_handle_t*', uv_handle)
self.c_attachment = attach(self.uv_handle, self)
self.on_closed = dummy_callback
self.loop = loop or Loop.current_loop()
if self.loop.closed: raise ClosedStructure()
self.destroyed = False
handles.add(self)
```
The `ClosedStructure` raise happens after the attachment was recorded and
before the handle enters the global `handles` set. -/
def Handle.init (w : World) (addr hid : Nat) (loopClosed : Bool) : InitResult :=
  match attach w addr hid with
  | .error e => .raised w none e
  | .ok w1 =>
      if loopClosed then .raised w1 none .closedStructure
      else .ok { w1 with handles := hid :: w1.handles }
          { hid := hid, uv_handle := some addr, destroyed := false,
            on_closed := 0, nativeActive := false, nativeClosing := false,
            nativeHasRef := false, uvCloseCalls := 0 }

/-- `Handle.destroy` (handle.py lines 190-200):
```
self.uv_handle = None
handles.remove(self)
self.destroyed = True
```
Note: it does not call `detach`; the attachment registry is untouched. -/
def Handle.destroy (w : World) (s : HandleState) : World × HandleState :=
  ({ w with handles := w.handles.erase s.hid },
   { s with uv_handle := none, destroyed := true })

/-- `FSEvent.__init__` (fs_event.py lines 116-205): runs
`Handle.__init__`, then `code = lib.uv_fs_event_init(...)`;
`if code < 0: self.destroy(); raise error.UVError(code)`.  `initCode` is
the status the native init call returns. -/
def FSEvent.init (w : World) (addr hid : Nat) (loopClosed : Bool)
    (initCode : Int) : InitResult :=
  match Handle.init w addr hid loopClosed with
  | .raised w1 s e => .raised w1 s e
  | .ok w1 s1 =>
      if initCode < 0 then
        let ws := Handle.destroy w1 s1
        .raised ws.1 (some ws.2) (.uvError initCode)
      else .ok w1 s1

/-! ## Buffer-size platform scaling (`uv/handle.py` + native semantics) -/

/-- The value the binding's buffer-size setters hand to the native call:
`int(value / 2) if is_linux else value` (handle.py lines 106 and 138). -/
def bufferSizeSetterArg (is_linux : Bool) (value : Nat) : Nat :=
  if is_linux then value / 2 else value

/-- Modelled from the spec: the native buffer-size semantics the binding
compensates for — on Linux the kernel stores double the value being set,
elsewhere the value is stored verbatim; a get reports the stored value
(spec §9: "Linux reports/expects doubled values versus raw values
elsewhere").  The native `uv_send_buffer_size`/`uv_recv_buffer_size` calls
themselves are outside the source files. -/
def nativeBufferSizeStore (is_linux : Bool) (v : Nat) : Nat :=
  if is_linux then 2 * v else v

/-- The buffer size observed by a get immediately after the binding's
setter ran with `value`: the getters (handle.py lines 97-102, 110-128)
return the native value unscaled. -/
def observedAfterSet (is_linux : Bool) (value : Nat) : Nat :=
  nativeBufferSizeStore is_linux (bufferSizeSetterArg is_linux value)

/-! ## Requests (`uv/request.py`) -/

/-- Pending Registry contents, as visible to requests.  Modelled from the
spec: `loop.structure_set_pending` / `structure_clear_pending` live in the
loop module, which is not among the source files; the registry is a
process-wide set whose membership pins objects alive (spec §3, §4.4). -/
structure ReqWorld : Type where
  pending : List Nat
deriving DecidableEq, Repr

/-- Modelled from the spec: `loop.structure_set_pending(self)` — inserts
the request into the Pending Registry. -/
def structureSetPending (w : ReqWorld) (rid : Nat) : ReqWorld :=
  { w with pending := rid :: w.pending }

/-- Modelled from the spec: `loop.structure_clear_pending(self)` — removes
the request from the Pending Registry; removing an absent member is a
no-op (spec §4.4: double-removal is treated as a no-op). -/
def structureClearPending (w : ReqWorld) (rid : Nat) : ReqWorld :=
  { w with pending := w.pending.erase rid }

/-- A `UVRequest` object: identity and the `finished` flag
(request.py `__slots__`). -/
structure UVReq : Type where
  rid : Nat
  finished : Bool
deriving DecidableEq, Repr

/-- Result of `UVRequest.__init__`: either the constructed request, or the
`ClosedLoopError` raise (the partially constructed object, with `finished`
already set to `True`, rides along; it was never entered into the
registry). -/
inductive ReqInitResult : Type
  | ok (w : ReqWorld) (r : UVReq) : ReqInitResult
  | raisedClosedLoop (w : ReqWorld) (r : UVReq) : ReqInitResult
deriving DecidableEq, Repr

/-- `UVRequest.__init__` (request.py lines 61-85):
```
self.finished = False
if self.loop.closed:
    self.finished = True
    raise error.ClosedLoopError()
self.base_request = base.BaseRequest(...)
self.set_pending()
```
-/
def UVRequest.init (w : ReqWorld) (rid : Nat) (loopClosed : Bool) :
    ReqInitResult :=
  if loopClosed then .raisedClosedLoop w { rid := rid, finished := true }
  else .ok (structureSetPending w rid) { rid := rid, finished := false }

/-- Modelled from the spec: `base_request.cancel()` forwards to the native
`cancel(native_request) -> status` call (spec §6) and returns its status
code; the base-request module is not among the source files.  `nativeCode`
is the status the native layer reports. -/
def BaseRequest.cancel (nativeCode : Int) : Int :=
  nativeCode

/-- `UVRequest.cancel` (request.py lines 96-102):
```
code = self.base_request.cancel()
if code != error.StatusCodes.SUCCESS: raise error.UVError(code)
```
(`SUCCESS` is status code 0). -/
def UVRequest.cancel (w : ReqWorld) (r : UVReq) (nativeCode : Int) :
    Except Err (ReqWorld × UVReq) :=
  let code := BaseRequest.cancel nativeCode
  if code ≠ 0 then .error (.uvError code) else .ok (w, r)

/-- Modelled from the spec: the Finished transition performed by the native
completion callback — sets the `finished` flag and removes the request from
the Pending Registry exactly once (spec §4.4); the request-kind completion
trampolines are not among the source files. -/
def UVRequest.finish (w : ReqWorld) (r : UVReq) : ReqWorld × UVReq :=
  (structureClearPending w r.rid, { r with finished := true })

/-! ## Buffer marshalling (`uv/library.py`) -/

/-- The argument accepted by `Buffers.__new__`: a single `bytes` object or
a sequence of them. -/
inductive BuffersArg : Type
  | bytes (b : List Nat) : BuffersArg
  | seq (bs : List (List Nat)) : BuffersArg
deriving DecidableEq, Repr

/-- `buffers = [buffers] if isinstance(buffers, bytes) else buffers`
(library.py line 124). -/
def BuffersArg.asList : BuffersArg → List (List Nat)
  | .bytes b => [b]
  | .seq bs => bs

/-- `ffi.new('char[]', buf)`: allocates a copy of the bytes with a
terminating NUL byte. -/
def charArrayNew (buf : List Nat) : List Nat :=
  buf ++ [0]

/-- A native `uv_buf_t` descriptor: base pointer (modelled by the bytes it
points at) and length. -/
structure UVBufT : Type where
  base : List Nat
  length : Nat
deriving DecidableEq, Repr

/-- `uv_buffer_set` (library.py lines 73-91): writes base and length into
a descriptor. -/
def uv_buffer_set (c_base : List Nat) (length : Nat) : UVBufT :=
  { base := c_base, length := length }

/-- The `Buffers` tuple: `(c_buffers, uv_buffers)` (library.py line 130). -/
structure Buffers : Type where
  c_buffers : List (List Nat)
  uv_buffers : List UVBufT
deriving DecidableEq, Repr

/-- `Buffers.__new__` (library.py lines 119-130):
```
buffers = [buffers] if isinstance(buffers, bytes) else buffers
c_buffers = [ffi.new('char[]', buf) for buf in buffers]
uv_buffers = ffi.new('uv_buf_t[]', len(buffers))
for index, buf in enumerate(buffers):
    uv_buffer_set(ffi.addressof(uv_buffers[index]), c_buffers[index], len(buf))
```
-/
def Buffers.new (arg : BuffersArg) : Buffers :=
  let buffers := arg.asList
  let c_buffers := buffers.map charArrayNew
  let uv_buffers :=
    (buffers.zip c_buffers).map (fun p => uv_buffer_set p.2 p.1.length)
  { c_buffers := c_buffers, uv_buffers := uv_buffers }

/-- `Buffers.__len__` (library.py lines 132-133): `len(self[0])`, the
number of managed buffer copies. -/
def Buffers.len (b : Buffers) : Nat :=
  b.c_buffers.length

/-! ## Version introspection and the load-time check (`uv/library.py`) -/

/-- `version_major = (version_hex >> 16) & 0xff` (library.py line 67). -/
def version_major (version_hex : Nat) : Nat :=
  (version_hex >>> 16) &&& 0xff

/-- `version_minor = (version_hex >> 8) & 0xff` (library.py line 68). -/
def version_minor (version_hex : Nat) : Nat :=
  (version_hex >>> 8) &&& 0xff

/-- `version_patch = version_hex & 0xff` (library.py line 69). -/
def version_patch (version_hex : Nat) : Nat :=
  version_hex &&& 0xff

/-- Outcome of the module-load version checks (library.py lines 45-49). -/
inductive LoadResult : Type
  | ok : LoadResult
  | raisedIncompatibleBase : LoadResult
  | raisedIncompatibleC : LoadResult
deriving DecidableEq, Repr

/-- The load-time version verification (library.py lines 45-49):
```
if uvcffi.__version__ != __version__: raise RuntimeError('incompatible cffi base library ...')
if c_library_version != __version__: raise RuntimeError('incompatible cffi c library ...')
```
where `c_library_version` is the version string compiled into the loaded
native cffi library (`PYTHON_UV_CFFI_VERSION`). -/
def libraryLoadCheck (uvcffi_version c_library_version own_version : String) :
    LoadResult :=
  if uvcffi_version ≠ own_version then .raisedIncompatibleBase
  else if c_library_version ≠ own_version then .raisedIncompatibleC
  else .ok

/-! ## `FSEvent.start` (`uv/handles/fs_event.py`) -/

/-- Python truthiness of `a or b` for an optional string argument: the
empty string and `None` are falsy. -/
def pyOrStr (arg : Option String) (cur : Option String) : Option String :=
  match arg with
  | some p => if p = "" then cur else some p
  | none => cur

/-- Python truthiness of `a or b` for an optional integer argument: `0`
and `None` are falsy. -/
def pyOrNat (arg : Option Nat) (cur : Nat) : Nat :=
  match arg with
  | some f => if f = 0 then cur else f
  | none => cur

/-- Python truthiness of `a or b` for an optional callback argument:
callbacks are truthy objects, only `None` is falsy. -/
def pyOrCb (arg : Option Nat) (cur : Nat) : Nat :=
  arg.getD cur

/-- `library.str_py2c(path)`: converts a Python string to a C string;
`None` becomes the NULL pointer. -/
def str_py2c (s : Option String) : Option String :=
  s

/-- The attributes of an `FSEvent` handle touched by `start`
(fs_event.py `__slots__` plus the inherited closing state). -/
structure FSEventState : Type where
  closing : Bool
  path : Option String
  flags : Nat
  on_event : Nat
deriving DecidableEq, Repr

/-- The arguments of the native `uv_fs_event_start` call issued by
`FSEvent.start` (fs_event.py line 241): the converted path and the flags. -/
structure FSEventStartCall : Type where
  c_path : Option String
  flags : Nat
deriving DecidableEq, Repr

/-- Result of `FSEvent.start`. -/
inductive StartResult : Type
  | raisedClosedHandle : StartResult
  | raisedUVError (s : FSEventState) (call : FSEventStartCall) (code : Int) :
      StartResult
  | ok (s : FSEventState) (call : FSEventStartCall) : StartResult
deriving DecidableEq, Repr

/-- `FSEvent.start` (fs_event.py lines 207-243):
```
if self.closing: raise error.HandleClosedError()
self.path = path or self.path
self.flags = flags or self.flags
self.on_event = on_event or self.on_event
c_path = library.str_py2c(path)
code = lib.uv_fs_event_start(self.uv_fs_event, uv_fs_event_cb, c_path, self.flags)
if code < 0: raise error.UVError(code)
```
Note `c_path` is converted from the `path` parameter, not from
`self.path`.  `nativeCode` is the status the native start call returns. -/
def FSEvent.start (s : FSEventState) (path : Option String)
    (flags : Option Nat) (on_event : Option Nat) (nativeCode : Int) :
    StartResult :=
  if s.closing then .raisedClosedHandle
  else
    let s1 : FSEventState :=
      { s with path := pyOrStr path s.path,
               flags := pyOrNat flags s.flags,
               on_event := pyOrCb on_event s.on_event }
    let call : FSEventStartCall := { c_path := str_py2c path, flags := s1.flags }
    if nativeCode < 0 then .raisedUVError s1 call nativeCode
    else .ok s1 call

/-! ## Concrete example states used by counterexamples and witnesses -/

/-- A live, not-yet-closing handle with the dummy close callback. -/
def liveHandle : HandleState :=
  { hid := 1, uv_handle := some 7, destroyed := false, on_closed := 0,
    nativeActive := true, nativeClosing := false, nativeHasRef := true,
    uvCloseCalls := 0 }

/-- A destroyed handle, as `Handle.destroy` leaves it. -/
def destroyedHandle : HandleState :=
  { hid := 1, uv_handle := none, destroyed := true, on_closed := 0,
    nativeActive := false, nativeClosing := true, nativeHasRef := false,
    uvCloseCalls := 1 }

/-- The empty bookkeeping world. -/
def emptyWorld : World :=
  { handles := [], attachments := [] }

/-! ## Shared helper lemmas -/

/-- Masking with `0xff` is reduction modulo 256. -/
theorem and_255_eq_mod (n : Nat) : n &&& 255 = n % 256 := by
  have h : (255 : Nat) = 2 ^ 8 - 1 := by norm_num
  rw [h, Nat.and_pow_two_sub_one_eq_mod]

/-! ## Claims -/

/-- C1 counterexample: calling `close` again while the handle is Closing
(native closing flag set, `destroyed` still false after a first `close`) is
not a silent no-op — it changes the recorded callback and issues a second
native `uv_close` call, so the binding does not enforce a single
close-completion trampoline invocation. -/
theorem close_while_closing_not_noop_cx :
    (Handle.close liveHandle (some 1)).destroyed = false ∧
    (Handle.close liveHandle (some 1)).nativeClosing = true ∧
    Handle.close (Handle.close liveHandle (some 1)) (some 2) ≠
      Handle.close liveHandle (some 1) ∧
    (Handle.close (Handle.close liveHandle (some 1)) (some 2)).uvCloseCalls = 2 := by
  decide

/-- C1 (amended): `close` is a silent no-op only once the handle is
Destroyed; before destruction every `close` call issues a native `uv_close`
call, and the recorded completion callback is the last non-`None` callback
passed (a call with no callback keeps the previous one). -/
theorem close_noop_only_after_destroy (s : HandleState) (a b : Nat) :
    (s.destroyed = true → ∀ cb, Handle.close s cb = s) ∧
    (s.destroyed = false →
      (Handle.close s (some a)).on_closed = a ∧
      (Handle.close (Handle.close s (some a)) (some b)).on_closed = b ∧
      (Handle.close (Handle.close s (some a)) none).on_closed = a ∧
      (Handle.close (Handle.close s (some a)) (some b)).uvCloseCalls =
        s.uvCloseCalls + 2) := by
  constructor
  · intro h cb
    simp [Handle.close, h]
  · intro h
    simp [Handle.close, h]

/-- C1 witness: the amended statement evaluated on concrete handles. -/
theorem close_noop_only_after_destroy_witness :
    Handle.close destroyedHandle (some 5) = destroyedHandle ∧
    (Handle.close (Handle.close liveHandle (some 1)) (some 2)).on_closed = 2 :=
  ⟨(close_noop_only_after_destroy destroyedHandle 1 2).1 rfl (some 5),
   ((close_noop_only_after_destroy liveHandle 1 2).2 rfl).2.1⟩

/-- C2 counterexample: on a Destroyed handle the `active` accessor returns
`False` instead of failing, the `send_buffer_size` getter reaches the
native layer with a nulled handle reference instead of raising
`ClosedStructure`, `close` silently returns, and on a Closing TTY handle
`console_size` returns `(0, 0)` instead of failing. -/
theorem destroyed_accessors_do_not_raise_cx :
    Handle.active destroyedHandle = .ok false ∧
    Handle.send_buffer_size_get destroyedHandle 0 42 = .nativeOnNull ∧
    Handle.close destroyedHandle none = destroyedHandle ∧
    TTY.console_size true 0 3 4 = .ok (0, 0) := by
  decide

/-- C2 (amended): once Destroyed, `closed` reports true and `active` and
`referenced` report false (as values, not failures); only `fileno`,
`reference`, `dereference` and the `receive_buffer_size` setter raise
`ClosedStructure`; the two buffer-size getters and the `send_buffer_size`
setter perform the native call unguarded, reaching it with the nulled
native reference.  No buffer-size accessor checks the Closing state: on
any non-destroyed handle (closing or not) the getter simply returns the
native value; `TTY.console_size` checks Closing but returns `(0, 0)`
rather than failing. -/
theorem destroyed_and_closing_accessor_behaviour (s : HandleState)
    (hd : s.destroyed = true) (hn : s.uv_handle = none)
    (t : HandleState) (a : Nat) (ht : t.destroyed = false)
    (hta : t.uv_handle = some a)
    (code val : Int) (hcode : 0 ≤ code) (lin : Bool) (v : Nat) :
    Handle.closed s = .ok true ∧
    Handle.active s = .ok false ∧
    Handle.referenced s = .ok false ∧
    Handle.fileno s code val = .raised .closedStructure ∧
    Handle.reference s = .raised .closedStructure ∧
    Handle.dereference s = .raised .closedStructure ∧
    Handle.receive_buffer_size_set s lin v code = .raised .closedStructure ∧
    Handle.send_buffer_size_get s code val = .nativeOnNull ∧
    Handle.receive_buffer_size_get s code val = .nativeOnNull ∧
    Handle.send_buffer_size_set s lin v code = .nativeOnNull ∧
    Handle.send_buffer_size_get t code val = .ok val ∧
    Handle.receive_buffer_size_get t code val = .ok val ∧
    TTY.console_size true code val val = .ok (0, 0) := by
  have hlt : ¬ code < 0 := not_lt.mpr hcode
  refine ⟨?_, ?_, ?_, ?_, ?_, ?_, ?_, ?_, ?_, ?_, ?_, ?_, ?_⟩ <;>
    simp [Handle.closed, Handle.active, Handle.referenced, Handle.fileno,
          Handle.reference, Handle.dereference, Handle.receive_buffer_size_set,
          Handle.send_buffer_size_get, Handle.receive_buffer_size_get,
          Handle.send_buffer_size_set, TTY.console_size, nativeGetter,
          hd, hn, ht, hta, hlt]

/-- C2 witness: the amended statement evaluated on concrete handles. -/
theorem destroyed_and_closing_accessor_behaviour_witness :
    Handle.closed destroyedHandle = .ok true ∧
    Handle.active destroyedHandle = .ok false ∧
    Handle.referenced destroyedHandle = .ok false ∧
    Handle.fileno destroyedHandle 0 3 = .raised .closedStructure ∧
    Handle.reference destroyedHandle = .raised .closedStructure ∧
    Handle.dereference destroyedHandle = .raised .closedStructure ∧
    Handle.receive_buffer_size_set destroyedHandle true 8 0 =
      .raised .closedStructure ∧
    Handle.send_buffer_size_get destroyedHandle 0 3 = .nativeOnNull ∧
    Handle.receive_buffer_size_get destroyedHandle 0 3 = .nativeOnNull ∧
    Handle.send_buffer_size_set destroyedHandle true 8 0 = .nativeOnNull ∧
    Handle.send_buffer_size_get liveHandle 0 3 = .ok 3 ∧
    Handle.receive_buffer_size_get liveHandle 0 3 = .ok 3 ∧
    TTY.console_size true 0 3 3 = .ok (0, 0) :=
  destroyed_and_closing_accessor_behaviour destroyedHandle rfl rfl
    liveHandle 7 rfl rfl 0 3 (by decide) true 8

/-- C3 counterexample: a concrete failed `FSEvent` construction (fresh
world, native init status `-1`) leaves the handle destroyed and out of the
global handle set, but the attachment recorded for its native block is
still present in the registry — it is not released. -/
theorem fs_event_init_failure_keeps_attachment_cx :
    FSEvent.init emptyWorld 7 1 false (-1) =
      .raised { handles := [], attachments := [(7, 1)] }
        (some { hid := 1, uv_handle := none, destroyed := true, on_closed := 0,
                nativeActive := false, nativeClosing := false,
                nativeHasRef := false, uvCloseCalls := 0 })
        (.uvError (-1)) ∧
    ({ handles := [], attachments := [(7, 1)] } : World).attachments ≠ [] := by
  decide

/-- C3 (amended): when the kind-specific native init call fails, the
constructor destroys the handle — its native reference is nulled, its
`destroyed` flag is set, and it does not remain in the global handle set —
and raises the native error; but the native-block attachment recorded by
`Handle.__init__` is not released: the address stays mapped in the
Attachment Registry. -/
theorem fs_event_init_failure_destroys_but_keeps_attachment (w : World)
    (addr hid : Nat) (code : Int)
    (hfree : addr ∉ w.attachments.map Prod.fst)
    (hcode : code < 0) :
    FSEvent.init w addr hid false code =
      .raised { handles := w.handles, attachments := (addr, hid) :: w.attachments }
        (some { hid := hid, uv_handle := none, destroyed := true, on_closed := 0,
                nativeActive := false, nativeClosing := false,
                nativeHasRef := false, uvCloseCalls := 0 })
        (.uvError code) := by
  simp [FSEvent.init, Handle.init, attach, hfree, hcode, Handle.destroy,
        List.erase_cons_head]

/-- C3 witness: the amended statement evaluated on a concrete world. -/
theorem fs_event_init_failure_destroys_but_keeps_attachment_witness :
    FSEvent.init emptyWorld 9 2 false (-4095) =
      .raised { handles := [], attachments := [(9, 2)] }
        (some { hid := 2, uv_handle := none, destroyed := true, on_closed := 0,
                nativeActive := false, nativeClosing := false,
                nativeHasRef := false, uvCloseCalls := 0 })
        (.uvError (-4095)) :=
  fs_event_init_failure_destroys_but_keeps_attachment emptyWorld 9 2 (-4095)
    (by decide) (by decide)

/-- C4 counterexample: setting buffer size 3 and reading it back observes
2 on Linux but 3 elsewhere, under the same native store/report semantics
(Linux doubles the stored value, other platforms store verbatim). -/
theorem buffer_size_odd_value_platform_dependent_cx :
    observedAfterSet true 3 = 2 ∧ observedAfterSet false 3 = 3 ∧
    observedAfterSet true 3 ≠ observedAfterSet false 3 := by
  decide

/-- C4 (amended): the setter's halving on Linux cancels the kernel's
doubling only for even values: for every `v`, setting `2 * v` reads back
`2 * v` on both platforms, while setting the odd value `2 * v + 1` reads
back `2 * v` on Linux and `2 * v + 1` elsewhere. -/
theorem buffer_size_scaling_normalizes_even_values (v : Nat) :
    observedAfterSet false v = v ∧
    observedAfterSet true (2 * v) = 2 * v ∧
    observedAfterSet true (2 * v + 1) = 2 * v ∧
    observedAfterSet true (2 * v) = observedAfterSet false (2 * v) := by
  refine ⟨?_, ?_, ?_, ?_⟩ <;>
    simp [observedAfterSet, nativeBufferSizeStore, bufferSizeSetterArg] <;>
    omega

/-- C5: a successfully constructed request has `finished = false` and is a
member of the Pending Registry immediately; the Finished transition removes
it from the registry exactly once (afterwards it is no longer a member, and
a further removal is a no-op); constructing a request on a closed loop
raises `ClosedLoopError` synchronously with the registry untouched, so such
a request is never entered into the Pending Registry. -/
theorem request_pending_from_construction (w : ReqWorld) (rid : Nat)
    (hfresh : rid ∉ w.pending) :
    UVRequest.init w rid false =
      .ok (structureSetPending w rid) { rid := rid, finished := false } ∧
    rid ∈ (structureSetPending w rid).pending ∧
    UVRequest.finish (structureSetPending w rid) { rid := rid, finished := false } =
      (w, { rid := rid, finished := true }) ∧
    rid ∉ w.pending ∧
    structureClearPending w rid = w ∧
    UVRequest.init w rid true =
      .raisedClosedLoop w { rid := rid, finished := true } := by
  refine ⟨rfl, List.mem_cons_self _ _, ?_, hfresh, ?_, rfl⟩
  · simp [UVRequest.finish, structureClearPending, structureSetPending,
          List.erase_cons_head]
  · simp [structureClearPending, List.erase_of_not_mem hfresh]

/-- C5 witness: the statement evaluated on a concrete fresh request. -/
theorem request_pending_from_construction_witness :
    UVRequest.init { pending := [] } 5 false =
      .ok (structureSetPending { pending := [] } 5) { rid := 5, finished := false } ∧
    5 ∈ (structureSetPending { pending := [] } 5).pending ∧
    UVRequest.finish (structureSetPending { pending := [] } 5)
        { rid := 5, finished := false } =
      ({ pending := [] }, { rid := 5, finished := true }) ∧
    5 ∉ ({ pending := [] } : ReqWorld).pending ∧
    structureClearPending { pending := [] } 5 = { pending := [] } ∧
    UVRequest.init { pending := [] } 5 true =
      .raisedClosedLoop { pending := [] } { rid := 5, finished := true } :=
  request_pending_from_construction { pending := [] } 5 (by decide)

/-- C6: `cancel` does not itself transition state: on native success it
returns with the request's `finished` flag and the Pending Registry
exactly as before (only the status the native layer will hand to the
eventual completion callback is influenced, on the native side); a native
cancel failure is raised synchronously to the caller as `UVError` with the
native status code. -/
theorem request_cancel_frame (w : ReqWorld) (r : UVReq) (code : Int) :
    (code = 0 → UVRequest.cancel w r code = .ok (w, r)) ∧
    (code ≠ 0 → UVRequest.cancel w r code = .error (.uvError code)) := by
  constructor
  · intro h
    simp [UVRequest.cancel, BaseRequest.cancel, h]
  · intro h
    simp [UVRequest.cancel, BaseRequest.cancel, h]

/-- C6 witness: the statement evaluated on a concrete pending request for
a successful and a failing native cancel. -/
theorem request_cancel_frame_witness :
    UVRequest.cancel { pending := [3] } { rid := 3, finished := false } 0 =
      .ok ({ pending := [3] }, { rid := 3, finished := false }) ∧
    UVRequest.cancel { pending := [3] } { rid := 3, finished := false } (-125) =
      .error (.uvError (-125)) :=
  ⟨(request_cancel_frame { pending := [3] } { rid := 3, finished := false } 0).1
      rfl,
   (request_cancel_frame { pending := [3] } { rid := 3, finished := false }
      (-125)).2 (by decide)⟩

/-- Zipping a buffer list with its own managed copies and writing the
descriptors is the same as mapping descriptor construction over the
inputs. -/
theorem zip_charArray_map (bs : List (List Nat)) :
    (bs.zip (bs.map charArrayNew)).map (fun p => uv_buffer_set p.2 p.1.length) =
      bs.map (fun b => uv_buffer_set (charArrayNew b) b.length) := by
  induction bs with
  | nil => rfl
  | cons b bs ih => simp [ih]

/-- C7: the marshaller produces exactly one native descriptor per input
buffer, in order; each descriptor's recorded length equals the byte length
of the corresponding input; a single `bytes` value is treated as the
one-element sequence; and the reported number of buffers equals the number
of inputs. -/
theorem buffers_one_descriptor_per_input (arg : BuffersArg) (b : List Nat) :
    (Buffers.new arg).uv_buffers =
      arg.asList.map (fun buf => uv_buffer_set (charArrayNew buf) buf.length) ∧
    (Buffers.new arg).uv_buffers.length = arg.asList.length ∧
    (Buffers.new arg).uv_buffers.map UVBufT.length =
      arg.asList.map List.length ∧
    Buffers.len (Buffers.new arg) = arg.asList.length ∧
    (BuffersArg.bytes b).asList = [b] := by
  have hz := zip_charArray_map arg.asList
  refine ⟨?_, ?_, ?_, ?_, rfl⟩
  · simp only [Buffers.new]
    exact hz
  · simp only [Buffers.new]
    rw [hz]
    simp
  · simp only [Buffers.new]
    rw [hz]
    simp [uv_buffer_set, Function.comp]
  · simp [Buffers.new, Buffers.len]

/-- C8: at module load the binding raises unless both the cffi base
library's version and the version string compiled into the loaded native
cffi library equal its own version (the check passes exactly on agreement,
and each mismatch fails fast with the corresponding error); the packed
native version integer decodes with the major number in bits 16-23, minor
in bits 8-15 and patch in bits 0-7. -/
theorem version_check_and_decode (u c own : String) (M m p : Nat)
    (hM : M < 256) (hm : m < 256) (hp : p < 256) :
    (libraryLoadCheck u c own = .ok ↔ (u = own ∧ c = own)) ∧
    (u ≠ own → libraryLoadCheck u c own = .raisedIncompatibleBase) ∧
    (u = own → c ≠ own → libraryLoadCheck u c own = .raisedIncompatibleC) ∧
    version_major (M * 65536 + m * 256 + p) = M ∧
    version_minor (M * 65536 + m * 256 + p) = m ∧
    version_patch (M * 65536 + m * 256 + p) = p := by
  have h16 : (2 : Nat) ^ 16 = 65536 := by norm_num
  have h8 : (2 : Nat) ^ 8 = 256 := by norm_num
  refine ⟨?_, ?_, ?_, ?_, ?_, ?_⟩
  · by_cases h1 : u = own <;> by_cases h2 : c = own <;>
      simp_all [libraryLoadCheck]
  · intro h1
    simp [libraryLoadCheck, h1]
  · intro h1 h2
    simp [libraryLoadCheck, h1, h2]
  · rw [version_major, Nat.shiftRight_eq_div_pow, and_255_eq_mod, h16]
    omega
  · rw [version_minor, Nat.shiftRight_eq_div_pow, and_255_eq_mod, h8]
    omega
  · rw [version_patch, and_255_eq_mod]
    omega

/-- C8 witness: the statement evaluated on concrete version strings and a
concrete packed version number. -/
theorem version_check_and_decode_witness :
    (libraryLoadCheck "1.2.3" "1.2.3" "1.2.3" = .ok ↔
      (("1.2.3" : String) = "1.2.3" ∧ ("1.2.3" : String) = "1.2.3")) ∧
    (("1.2.3" : String) ≠ "1.2.3" →
      libraryLoadCheck "1.2.3" "1.2.3" "1.2.3" = .raisedIncompatibleBase) ∧
    (("1.2.3" : String) = "1.2.3" → ("1.2.3" : String) ≠ "1.2.3" →
      libraryLoadCheck "1.2.3" "1.2.3" "1.2.3" = .raisedIncompatibleC) ∧
    version_major (1 * 65536 + 45 * 256 + 0) = 1 ∧
    version_minor (1 * 65536 + 45 * 256 + 0) = 45 ∧
    version_patch (1 * 65536 + 45 * 256 + 0) = 0 :=
  version_check_and_decode "1.2.3" "1.2.3" "1.2.3" 1 45 0 (by decide)
    (by decide) (by decide)

/-- C9: constructing a handle on a closed loop raises `ClosedStructure`
only after the native block was attached: the failed constructor leaves the
address mapped in the Attachment Registry (the attachment is not removed)
and the global handle set unchanged (the handle was never added). -/
theorem handle_init_closed_loop_after_attach (w : World) (addr hid : Nat)
    (hfree : addr ∉ w.attachments.map Prod.fst) :
    Handle.init w addr hid true =
      .raised { handles := w.handles, attachments := (addr, hid) :: w.attachments }
        none .closedStructure := by
  simp [Handle.init, attach, hfree]

/-- C9 witness: the statement evaluated on the empty world. -/
theorem handle_init_closed_loop_after_attach_witness :
    Handle.init emptyWorld 7 1 true =
      .raised { handles := [], attachments := [(7, 1)] } none .closedStructure :=
  handle_init_closed_loop_after_attach emptyWorld 7 1 (by decide)

/-- C10: `FSEvent.start` converts and passes exactly its `path` parameter
to the native start call: invoked with the path omitted (`None`) on a
non-closing handle, the native call receives the NULL path — not the
previously stored `self.path` — while `self.path` itself is left unchanged
by such a call. -/
theorem fs_event_start_passes_argument_path (s : FSEventState)
    (fl cb : Option Nat) (code : Int) (hnc : s.closing = false)
    (hcode : 0 ≤ code) :
    FSEvent.start s none fl cb code =
      .ok { s with flags := pyOrNat fl s.flags, on_event := pyOrCb cb s.on_event }
          { c_path := none, flags := pyOrNat fl s.flags } := by
  have hlt : ¬ code < 0 := not_lt.mpr hcode
  simp [FSEvent.start, hnc, hlt, pyOrStr, str_py2c]

/-- C10 witness: the statement evaluated on a concrete watcher with a
stored path, started with the path omitted. -/
theorem fs_event_start_passes_argument_path_witness :
    FSEvent.start
        { closing := false, path := some "/tmp/watched", flags := 3, on_event := 1 }
        none none none 0 =
      .ok { closing := false, path := some "/tmp/watched", flags := 3, on_event := 1 }
          { c_path := none, flags := 3 } :=
  fs_event_start_passes_argument_path
    { closing := false, path := some "/tmp/watched", flags := 3, on_event := 1 }
    none none 0 rfl (by decide)

end UV
